import Mathlib

/-!
Shallow embedding of the motion-control firmware in src/src/main.cpp
(motorized IKEA Skarsta desk controller).

Machine integers (int, long) are modelled as Int; the float millisecond
fields of StoredProgram are carried as Int millisecond counts (the theorems
below depend only on the EEPROM byte footprint of the float fields and on
sign/ordering of durations, never on IEEE-754 bit patterns).  Hardware
streams (ultrasonic sensor polls, raw button levels, millis()) are modelled
as functions from a per-stream read counter to the value returned by that
read.  Unbounded while loops are given explicit fuel; running out of fuel is
reported as a none result, distinct from every genuine loop exit.
-/

set_option linter.unusedVariables false

namespace Skarsta

/-- Actuator commands: goUp / goDown (lines 872-903) and stopMoving (905-911). -/
inductive Act where
  | driveUp
  | driveDown
  | stop
  deriving DecidableEq, Repr

/-- Display fault codes shown on the 7-segment display. -/
inductive Note where
  | err2
  deriving DecidableEq, Repr

/-- Result of a long-press save attempt (position_0 lines 346-369,
position_1 lines 482-505). -/
inductive SaveResult where
  | err0
  | err1
  | savedPos0
  | savedPos1
  deriving DecidableEq, Repr

/-- The EEPROM modelled as a byte-addressed store (AVR EEPROM, one byte per
address). -/
abbrev EEPROM := Nat → Int

/-- Serialization of a C++ bool into its single EEPROM byte. -/
def boolByte (b : Bool) : Int := if b then 1 else 0

/-- Byte i of a little-endian multi-byte integer, as EEPROM.put lays out an
AVR int (2 bytes). -/
def intByte (v : Int) (i : Nat) : Int := (Int.fdiv v (256 ^ i)).emod 256

/-- Write a list of bytes starting at the given address, as EEPROM.put does. -/
def writeBytes (e : EEPROM) (addr : Nat) (bs : List Int) : EEPROM :=
  fun a => if addr ≤ a ∧ a < addr + bs.length then bs.getD (a - addr) 0 else e a

/-- EEPROM.put(addr, int v): an AVR int is 2 bytes, little-endian.
Used at lines 357 (put(0, pos0SaveHeight)) and 493 (put(1, pos1SaveHeight)). -/
def putInt16 (e : EEPROM) (addr : Nat) (v : Int) : EEPROM :=
  writeBytes e addr [intByte v 0, intByte v 1]

/-- struct StoredProgram, lines 109-115.  timeUp/timeDown are float
milliseconds in the source; carried here as Int milliseconds. -/
structure StoredProgram where
  isUpSet : Bool := false
  isDownSet : Bool := false
  timeUp : Int := 0
  timeDown : Int := 0
  deriving DecidableEq, Repr

/-- The four bytes of a float field.  Only the 4-byte footprint matters for
the theorems below, so the ms value is serialized little-endian. -/
def floatBytes (v : Int) : List Int :=
  [intByte v 0, intByte v 1, intByte v 2, intByte v 3]

/-- Byte layout of StoredProgram as EEPROM.put writes it at EEPROM_ADDRESS = 0:
offset 0 isUpSet, offset 1 isDownSet, offsets 2-5 timeUp, offsets 6-9 timeDown
(AVR: bool is 1 byte, float is 4 bytes). -/
def progBytes (p : StoredProgram) : List Int :=
  [boolByte p.isUpSet, boolByte p.isDownSet] ++ floatBytes p.timeUp ++ floatBytes p.timeDown

/-- saveToEEPROM_TimeUp, lines 917-923: set timeUp and isUpSet, then
EEPROM.put(EEPROM_ADDRESS = 0, savedProgram). -/
def saveToEEPROM_TimeUp (t : Int) (p : StoredProgram) (e : EEPROM) : StoredProgram × EEPROM :=
  let p2 : StoredProgram := { p with timeUp := t, isUpSet := true }
  (p2, writeBytes e 0 (progBytes p2))

/-- saveToEEPROM_TimeDown, lines 926-932. -/
def saveToEEPROM_TimeDown (t : Int) (p : StoredProgram) (e : EEPROM) : StoredProgram × EEPROM :=
  let p2 : StoredProgram := { p with timeDown := t, isDownSet := true }
  (p2, writeBytes e 0 (progBytes p2))

/-- pos0_height = EEPROM.read(0), line 162. -/
def readPos0Height (e : EEPROM) : Int := e 0

/-- pos1_height = EEPROM.read(1), line 163. -/
def readPos1Height (e : EEPROM) : Int := e 1

/-- The in-RAM session state: the EEPROM plus the pos0_height / pos1_height
globals, which are loaded once at startup (lines 162-163) and never
reassigned anywhere else in the source. -/
structure Session where
  eeprom : EEPROM
  pos0_height : Int
  pos1_height : Int

/-- Long-press branch of position_0, lines 346-369: read current height h;
if h >= pos1_height reject with Err0 and persist nothing, else
EEPROM.put(0, h).  The RAM heights are not reassigned in either branch. -/
def position0LongPress (h : Int) (s : Session) : Session × SaveResult :=
  if s.pos1_height ≤ h then (s, SaveResult.err0)
  else ({ s with eeprom := putInt16 s.eeprom 0 h }, SaveResult.savedPos0)

/-- Long-press branch of position_1, lines 482-505: read current height h;
if h <= pos0_height reject with Err1 and persist nothing, else
EEPROM.put(1, h). -/
def position1LongPress (h : Int) (s : Session) : Session × SaveResult :=
  if h ≤ s.pos0_height then (s, SaveResult.err1)
  else ({ s with eeprom := putInt16 s.eeprom 1 h }, SaveResult.savedPos1)

/-- Short-press drive target of position_0, line 379:
int desired_height = pos0_height (the RAM global). -/
def shortPress0Target (s : Session) : Int := s.pos0_height

/-- Short-press drive target of position_1, line 513:
int desired_height = pos1_height (the RAM global). -/
def shortPress1Target (s : Session) : Int := s.pos1_height

/-- debounceRead, lines 196-205: sample the raw level; if it differs from
the latched state, resample once and return the resample.  Returns the
level read together with the advanced read counter. -/
def debounceRead (stream : Nat → Bool) (idx : Nat) (state : Bool) : Bool × Nat :=
  let a := stream idx
  if a ≠ state then (stream (idx + 1), idx + 2) else (a, idx + 1)

/-- Hardware inputs consumed by a closed-loop drive: the ultrasonic sensor
and the two raw motion-button levels, each indexed by its own read counter. -/
structure DriveEnv where
  sensor : Nat → Int
  btnUp : Nat → Bool
  btnDown : Nat → Bool

/-- Running state of a closed-loop drive: current_height, the locally
latched btnUpState/btnDownState (lines 455-456), the per-stream read
counters, and the trace of actuator commands and displayed fault codes. -/
structure DriveSt where
  cur : Int
  btnUpState : Bool
  btnDownState : Bool
  sIdx : Nat
  uIdx : Nat
  dIdx : Nat
  acts : List Act
  notes : List Note

/-- How a closed-loop drive loop ended.  atTarget is the while condition
failing at entry without an iteration. -/
inductive DriveExit where
  | reached
  | sensorFault
  | cancelledUp
  | cancelledDown
  | atTarget
  deriving DecidableEq, Repr

/-- checkHeight, lines 581-595: current_height = ultrasonic.read(); if the
reading is 0, display Err2. -/
def checkHeight (env : DriveEnv) (st : DriveSt) : DriveSt :=
  let h := env.sensor st.sIdx
  { st with cur := h, sIdx := st.sIdx + 1,
            notes := if h = 0 then st.notes ++ [Note.err2] else st.notes }

/-- The BUTTON_UP cancellation check inside the position drive loops
(lines 535-551): a fresh press cancels with stopMoving; a stale latched
press that is now released clears btnUpState. -/
def cancelCheckUp (env : DriveEnv) (st : DriveSt) : DriveSt × Bool :=
  if st.btnUpState = false then
    let r := debounceRead env.btnUp st.uIdx false
    if r.1 then ({ st with uIdx := r.2, acts := st.acts ++ [Act.stop] }, true)
    else ({ st with uIdx := r.2 }, false)
  else
    let r := debounceRead env.btnUp st.uIdx true
    if r.1 then ({ st with uIdx := r.2 }, false)
    else ({ st with uIdx := r.2, btnUpState := false }, false)

/-- The BUTTON_DOWN cancellation check inside the position drive loops
(lines 553-569). -/
def cancelCheckDown (env : DriveEnv) (st : DriveSt) : DriveSt × Bool :=
  if st.btnDownState = false then
    let r := debounceRead env.btnDown st.dIdx false
    if r.1 then ({ st with dIdx := r.2, acts := st.acts ++ [Act.stop] }, true)
    else ({ st with dIdx := r.2 }, false)
  else
    let r := debounceRead env.btnDown st.dIdx true
    if r.1 then ({ st with dIdx := r.2 }, false)
    else ({ st with dIdx := r.2, btnDownState := false }, false)

/-- The short-press drive loop of position_1, lines 514-570:
while (current_height < desired_height) { checkHeight(); goUp();
if (current_height >= desired_height) { stopMoving(); ...; checkHeight(); break; }
else if (current_height == 0) { checkHeight(); break; }   -- note: no stopMoving
cancel checks for BUTTON_UP then BUTTON_DOWN }. -/
def pos1DriveLoop (env : DriveEnv) (desired : Int) : Nat → DriveSt → DriveSt × Option DriveExit
  | 0, st => if st.cur < desired then (st, none) else (st, some DriveExit.atTarget)
  | fuel + 1, st =>
    if st.cur < desired then
      let st1 := checkHeight env st
      let st2 := { st1 with acts := st1.acts ++ [Act.driveUp] }
      if desired ≤ st2.cur then
        let st3 := { st2 with acts := st2.acts ++ [Act.stop] }
        (checkHeight env st3, some DriveExit.reached)
      else if st2.cur = 0 then
        (checkHeight env st2, some DriveExit.sensorFault)
      else
        let cu := cancelCheckUp env st2
        if cu.2 then (cu.1, some DriveExit.cancelledUp)
        else
          let cd := cancelCheckDown env cu.1
          if cd.2 then (cd.1, some DriveExit.cancelledDown)
          else pos1DriveLoop env desired fuel cd.1
    else (st, some DriveExit.atTarget)

/-- position_1 short-press drive including the function-entry reads of
lines 455-458: btnUpState, btnDownState and the initial current_height are
sampled before the loop starts. -/
def pos1Drive (env : DriveEnv) (desired : Int) (fuel : Nat) : DriveSt × Option DriveExit :=
  pos1DriveLoop env desired fuel
    { cur := env.sensor 0, btnUpState := env.btnUp 0, btnDownState := env.btnDown 0,
      sIdx := 1, uIdx := 1, dIdx := 1, acts := [], notes := [] }

/-- Hardware inputs consumed by the open-loop timed controllers and the
program-mode recorder: millis() and the two raw button streams. -/
structure AutoEnv where
  millis : Nat → Int
  btnUp : Nat → Bool
  btnDown : Nat → Bool

/-- Running state of an open-loop timed drive. -/
structure AutoSt where
  elapsed : Int
  btnUpState : Bool
  btnDownState : Bool
  mIdx : Nat
  uIdx : Nat
  dIdx : Nat
  acts : List Act

/-- Outcome of an open-loop timed controller invocation. -/
inductive Outcome where
  | completed
  | cancelled
  | notProgrammed
  deriving DecidableEq, Repr

/-- BUTTON_UP cancellation check of autoRaiseDesk/autoLowerDesk
(lines 793-798 and 842-848): unlike the position loops, the break here does
not itself call stopMoving - the unconditional stopMoving after the loop
does. -/
def autoCancelUp (env : AutoEnv) (st : AutoSt) : AutoSt × Bool :=
  if st.btnUpState = false then
    let r := debounceRead env.btnUp st.uIdx false
    ({ st with uIdx := r.2 }, r.1)
  else
    let r := debounceRead env.btnUp st.uIdx true
    if r.1 then ({ st with uIdx := r.2 }, false)
    else ({ st with uIdx := r.2, btnUpState := false }, false)

/-- BUTTON_DOWN cancellation check of autoRaiseDesk/autoLowerDesk
(lines 800-806 and 850-855). -/
def autoCancelDown (env : AutoEnv) (st : AutoSt) : AutoSt × Bool :=
  if st.btnDownState = false then
    let r := debounceRead env.btnDown st.dIdx false
    ({ st with dIdx := r.2 }, r.1)
  else
    let r := debounceRead env.btnDown st.dIdx true
    if r.1 then ({ st with dIdx := r.2 }, false)
    else ({ st with dIdx := r.2, btnDownState := false }, false)

/-- timeToRaise = savedProgram.timeUp - alreadyElapsed, line 781. -/
def timeToRaise (p : StoredProgram) (alreadyElapsed : Int) : Int :=
  p.timeUp - alreadyElapsed

/-- timeToLower = savedProgram.timeDown - alreadyElapsed, line 829. -/
def timeToLower (p : StoredProgram) (alreadyElapsed : Int) : Int :=
  p.timeDown - alreadyElapsed

/-- The shared body of the two textually parallel timed loops
(autoRaiseDesk lines 789-809, autoLowerDesk lines 837-859):
while (elapsed < remaining) { drive; cancel checks; elapsed = millis() - startTime }. -/
def autoDriveLoop (env : AutoEnv) (dirAct : Act) (startTime remaining : Int) :
    Nat → AutoSt → AutoSt × Option Outcome
  | 0, st => if st.elapsed < remaining then (st, none) else (st, some Outcome.completed)
  | fuel + 1, st =>
    if st.elapsed < remaining then
      let st1 := { st with acts := st.acts ++ [dirAct] }
      let cu := autoCancelUp env st1
      if cu.2 then (cu.1, some Outcome.cancelled)
      else
        let cd := autoCancelDown env cu.1
        if cd.2 then (cd.1, some Outcome.cancelled)
        else
          let st2 := { cd.1 with elapsed := env.millis cd.1.mIdx - startTime,
                                 mIdx := cd.1.mIdx + 1 }
          autoDriveLoop env dirAct startTime remaining fuel st2
    else (st, some Outcome.completed)

/-- autoRaiseDesk, lines 774-819: if isUpSet is false, print an error and
command nothing; otherwise run the timed loop and then stopMoving
unconditionally. -/
def autoRaiseDesk (env : AutoEnv) (p : StoredProgram) (alreadyElapsed : Int) (fuel : Nat) :
    List Act × Option Outcome :=
  if p.isUpSet then
    let remaining := timeToRaise p alreadyElapsed
    let startTime := env.millis 0
    let st0 : AutoSt := { elapsed := env.millis 1 - startTime,
                          btnUpState := env.btnUp 0, btnDownState := env.btnDown 0,
                          mIdx := 2, uIdx := 1, dIdx := 1, acts := [] }
    let r := autoDriveLoop env Act.driveUp startTime remaining fuel st0
    (r.1.acts ++ [Act.stop], r.2)
  else ([], some Outcome.notProgrammed)

/-- autoLowerDesk, lines 823-869: symmetric to autoRaiseDesk with
isDownSet, timeDown and goDown. -/
def autoLowerDesk (env : AutoEnv) (p : StoredProgram) (alreadyElapsed : Int) (fuel : Nat) :
    List Act × Option Outcome :=
  if p.isDownSet then
    let remaining := timeToLower p alreadyElapsed
    let startTime := env.millis 0
    let st0 : AutoSt := { elapsed := env.millis 1 - startTime,
                          btnUpState := env.btnUp 0, btnDownState := env.btnDown 0,
                          mIdx := 2, uIdx := 1, dIdx := 1, acts := [] }
    let r := autoDriveLoop env Act.driveDown startTime remaining fuel st0
    (r.1.acts ++ [Act.stop], r.2)
  else ([], some Outcome.notProgrammed)

/-- Running state of the program-mode recorder loop (handleProgramMode,
lines 985-1062): recUp/recDown, the latched btnUpPressed/btnDownPressed,
recStart, the read counters and the actuator trace. -/
structure PMSt where
  recUp : Bool
  recDown : Bool
  btnUpPressed : Bool
  btnDownPressed : Bool
  recStart : Int
  mIdx : Nat
  uIdx : Nat
  dIdx : Nat
  acts : List Act

/-- The only exits of the recorder loop: a completed recording saved via
saveToEEPROM_TimeUp / saveToEEPROM_TimeDown followed by break. -/
inductive PMExit where
  | savedUp (ms : Int)
  | savedDown (ms : Int)
  deriving DecidableEq, Repr

/-- Trailing statement of the raise block, lines 1021-1026: if (recUp)
{ Serial.println(millis() - recStart); goUp(); } - the print consumes a
millis() read. -/
def pmRecUpDrive (env : AutoEnv) (st : PMSt) : PMSt :=
  if st.recUp then { st with mIdx := st.mIdx + 1, acts := st.acts ++ [Act.driveUp] }
  else st

/-- Trailing statement of the lower block, lines 1054-1059. -/
def pmRecDownDrive (env : AutoEnv) (st : PMSt) : PMSt :=
  if st.recDown then { st with mIdx := st.mIdx + 1, acts := st.acts ++ [Act.driveDown] }
  else st

/-- The HANDLE PROGRAM - RAISE block, lines 999-1027: on a fresh press start
recording (recStart = millis()); on a release while recording, stopMoving,
save the elapsed time and break out of the recorder. -/
def pmUpBlock (env : AutoEnv) (st : PMSt) : PMSt × Option PMExit :=
  if st.btnUpPressed = false then
    let r := debounceRead env.btnUp st.uIdx false
    if r.1 then
      let st1 := { st with uIdx := r.2, btnUpPressed := true, recUp := true,
                           recStart := env.millis st.mIdx, mIdx := st.mIdx + 1 }
      (pmRecUpDrive env st1, none)
    else (pmRecUpDrive env { st with uIdx := r.2 }, none)
  else
    let r := debounceRead env.btnUp st.uIdx true
    if r.1 then (pmRecUpDrive env { st with uIdx := r.2 }, none)
    else
      let st1 := { st with uIdx := r.2, btnUpPressed := false }
      if st1.recUp then
        let st2 := { st1 with recUp := false, acts := st1.acts ++ [Act.stop] }
        ({ st2 with mIdx := st2.mIdx + 1 },
         some (PMExit.savedUp (env.millis st2.mIdx - st2.recStart)))
      else (pmRecUpDrive env st1, none)

/-- The HANDLE PROGRAM - LOWER block, lines 1032-1060. -/
def pmDownBlock (env : AutoEnv) (st : PMSt) : PMSt × Option PMExit :=
  if st.btnDownPressed = false then
    let r := debounceRead env.btnDown st.dIdx false
    if r.1 then
      let st1 := { st with dIdx := r.2, btnDownPressed := true, recDown := true,
                           recStart := env.millis st.mIdx, mIdx := st.mIdx + 1 }
      (pmRecDownDrive env st1, none)
    else (pmRecDownDrive env { st with dIdx := r.2 }, none)
  else
    let r := debounceRead env.btnDown st.dIdx true
    if r.1 then (pmRecDownDrive env { st with dIdx := r.2 }, none)
    else
      let st1 := { st with dIdx := r.2, btnDownPressed := false }
      if st1.recDown then
        let st2 := { st1 with recDown := false, acts := st1.acts ++ [Act.stop] }
        ({ st2 with mIdx := st2.mIdx + 1 },
         some (PMExit.savedDown (env.millis st2.mIdx - st2.recStart)))
      else (pmRecDownDrive env st1, none)

/-- The recorder loop, while (true) at lines 991-1062.  The if at line 994
(if (!recUp && !recDown)) has no braces, so it guards the entire raise block
(the next statement, if (!recDown) { ... }); the lower block is guarded by
if (!recUp) only.  The only breaks are inside the two save branches, so the
loop result is none (still running) for any fuel unless a recording
completes. -/
def pmLoop (env : AutoEnv) : Nat → PMSt → PMSt × Option PMExit
  | 0, st => (st, none)
  | fuel + 1, st =>
    let r1 := if (!st.recUp && !st.recDown) && !st.recDown
              then pmUpBlock env st else (st, none)
    match r1.2 with
    | some x => (r1.1, some x)
    | none =>
      let r2 := if !r1.1.recUp then pmDownBlock env r1.1 else (r1.1, none)
      match r2.2 with
      | some x => (r2.1, some x)
      | none => pmLoop env fuel r2.1

/-- Entry into the recorder, lines 985-991: recUp = recDown = false and the
latched button flags are initialized from raw digitalRead calls before the
while (true) loop starts. -/
def pmEnter (env : AutoEnv) (fuel : Nat) : PMSt × Option PMExit :=
  pmLoop env fuel
    { recUp := false, recDown := false,
      btnUpPressed := env.btnUp 0, btnDownPressed := env.btnDown 0,
      recStart := 0, mIdx := 0, uIdx := 1, dIdx := 1, acts := [] }

/-- Input trace for the recorder in which both buttons are released at entry
and never pressed again. -/
def pmEnvReleased : AutoEnv :=
  { millis := fun _ => 0, btnUp := fun _ => false, btnDown := fun _ => false }

/-- The quiescent recorder state: nothing recorded, both latched button
flags clear, no actuator commands issued, read counters at u and d. -/
def pmQ (u d : Nat) : PMSt :=
  { recUp := false, recDown := false, btnUpPressed := false, btnDownPressed := false,
    recStart := 0, mIdx := 0, uIdx := u, dIdx := d, acts := [] }

/-- Per-channel click-combo counter state: btnUpClicks and
btnUpFirstClickTime (lines 138-139). -/
structure ClickSt where
  clicks : Int
  firstClickTime : Int
  deriving DecidableEq, Repr

/-- PRG_ACTIVATE_PRECLICK_THRESHOLD = 1000, line 129. -/
def PRG_ACTIVATE_PRECLICK_THRESHOLD : Int := 1000

/-- PRG_ACTIVATE_PRECLICKS = 3, line 128. -/
def PRG_ACTIVATE_PRECLICKS : Int := 3

/-- checkButtonClicksExpired for one channel, lines 603-610: reset clicks
and the window start when btnUpFirstClickTime > 0 and
millis() - btnUpFirstClickTime >= PRG_ACTIVATE_PRECLICK_THRESHOLD.
The reset is anchored at the FIRST click of the window. -/
def checkButtonClicksExpired (now : Int) (st : ClickSt) : ClickSt :=
  if 0 < st.firstClickTime ∧ PRG_ACTIVATE_PRECLICK_THRESHOLD ≤ now - st.firstClickTime
  then { clicks := 0, firstClickTime := 0 } else st

/-- Click registration in the press branch of handleButtonUp, lines 631-637:
if (btnUpClicks == 0) btnUpFirstClickTime = millis(); btnUpClicks++. -/
def registerClick (now : Int) (st : ClickSt) : ClickSt :=
  { clicks := st.clicks + 1,
    firstClickTime := if st.clicks = 0 then now else st.firstClickTime }

/-- One polling tick of loop() as seen by the click counter: the expiry
check runs first (line 300), then a press, if any, is registered
(handleButtonUp, line 303). -/
def clickTick (st : ClickSt) (ev : Int × Bool) : ClickSt :=
  let st1 := checkButtonClicksExpired ev.1 st
  if ev.2 then registerClick ev.1 st1 else st1

/-- A sequence of polling ticks, each an observation time paired with
whether a fresh press arrives on that tick. -/
def runClicks (evs : List (Int × Bool)) (st : ClickSt) : ClickSt :=
  evs.foldl clickTick st

/-- EEPROM contents after the two heights have been persisted:
byte 0 holds position-0 height 50, byte 1 holds position-1 height 110. -/
def eepromHeights : EEPROM := fun a => if a = 0 then 50 else if a = 1 then 110 else 0

/-- A session whose startup-loaded RAM heights are 50 and 110. -/
def sess0 : Session := { eeprom := eepromHeights, pos0_height := 50, pos1_height := 110 }

/-- Sensor trace for the nominal seek-up scenario: entry read 50, then
polls 70, 90, 110; buttons never pressed. -/
def env9 : DriveEnv :=
  { sensor := fun i => [50, 70, 90, 110].getD i 110,
    btnUp := fun _ => false, btnDown := fun _ => false }

/-- Sensor trace in which the very next poll after entry is the fault
sentinel 0. -/
def env2 : DriveEnv :=
  { sensor := fun i => [50, 0, 0].getD i 0,
    btnUp := fun _ => false, btnDown := fun _ => false }

/-- Sensor trace with one good poll and then the fault sentinel 0. -/
def env1 : DriveEnv :=
  { sensor := fun i => [50, 60, 0, 0].getD i 0,
    btnUp := fun _ => false, btnDown := fun _ => false }

/-- Constant-zero clock and released buttons for the open-loop controller. -/
def autoEnv0 : AutoEnv :=
  { millis := fun _ => 0, btnUp := fun _ => false, btnDown := fun _ => false }

/-- Helper: on the released-and-never-pressed trace the recorder loop maps a
quiescent state to a quiescent state forever: it never exits and never
commands the actuator, for any amount of fuel. -/
theorem pmLoop_releasedQuiescent (fuel u d : Nat) :
    (pmLoop pmEnvReleased fuel (pmQ u d)).2 = none ∧
    (pmLoop pmEnvReleased fuel (pmQ u d)).1.acts = [] := by
  induction fuel generalizing u d with
  | zero => simp [pmLoop, pmQ]
  | succ n ih =>
    have hstep : pmLoop pmEnvReleased (n + 1) (pmQ u d)
        = pmLoop pmEnvReleased n (pmQ (u + 1) (d + 1)) := by
      simp [pmLoop, pmUpBlock, pmDownBlock, pmRecUpDrive, pmRecDownDrive,
            debounceRead, pmEnvReleased, pmQ]
    rw [hstep]
    exact ih (u + 1) (d + 1)

/-- Claim C7: entering the calibration recorder and then releasing both
buttons without ever pressing a single button again makes the recorder spin
in its while (true) loop forever: for every fuel bound it has neither exited
(returned control) nor issued any actuator command, because the loop at
lines 991-1062 has no exit path other than completing a recording (the
timeout exit is commented out at lines 984 and 993).  This refutes the
claim that the recorder terminates with no write. -/
theorem programMode_recorder_never_returns (fuel : Nat) :
    (pmEnter pmEnvReleased fuel).2 = none ∧ (pmEnter pmEnvReleased fuel).1.acts = [] := by
  have h := pmLoop_releasedQuiescent fuel 1 1
  exact h

/-- Claim C9: with stand height 110 stored and the sensor reporting
50, 70, 90, 110 on successive polls and no button pressed, the closed-loop
seek-up drive issues exactly three driveUp commands followed by exactly one
stop, and exits with the reached outcome (the reached condition being
current >= target for seek-up, line 519). -/
theorem seekUp_scenario_three_drives_then_stop :
    (pos1Drive env9 110 10).1.acts = [Act.driveUp, Act.driveUp, Act.driveUp, Act.stop]
    ∧ (pos1Drive env9 110 10).2 = some DriveExit.reached := by
  decide

/-- Claim C2: in the seek-up closed-loop drive, when the sensor returns the
fault sentinel 0 mid-drive the code does surface Err2 and exits with the
sensor-fault outcome, but the drive command of that tick has already been
issued after the sentinel reading (goUp at line 518 precedes the fault check
at line 530) and the fault branch breaks without ever calling stopMoving:
no stop appears in the actuator trace.  This divergence from the claim is
evaluated at the concrete failing trace of env2. -/
theorem closedLoop_sensorFault_drives_then_skips_stop :
    (pos1Drive env2 110 10).2 = some DriveExit.sensorFault
    ∧ (pos1Drive env2 110 10).1.acts = [Act.driveUp]
    ∧ Act.stop ∉ (pos1Drive env2 110 10).1.acts
    ∧ Note.err2 ∈ (pos1Drive env2 110 10).1.notes := by
  decide

/-- Claim C1: the sensor-fault exit path of the seek-up closed-loop drive
returns with zero stop commands, and the last actuator command on that exit
path is driveUp, not stop - the motor is left running.  Evaluated at the
concrete failing trace of env1 (one good poll, then the sentinel 0).  This
refutes the exit-always-stops contract for this drive loop. -/
theorem closedLoop_sensorFault_exit_lacks_stop :
    (pos1Drive env1 110 10).2 = some DriveExit.sensorFault
    ∧ (pos1Drive env1 110 10).1.acts = [Act.driveUp, Act.driveUp]
    ∧ ((pos1Drive env1 110 10).1.acts).count Act.stop = 0
    ∧ ((pos1Drive env1 110 10).1.acts).getLast? = some Act.driveUp := by
  decide

/-- Claim C3 counterexample: saving a recorded drive duration does NOT leave
the persisted position-0 height unchanged.  With height 50 persisted at
byte 0, saveToEEPROM_TimeUp writes the StoredProgram at address 0 and byte 0
becomes the serialized isUpSet flag, so the height read back changes. -/
theorem eeprom_records_not_disjoint_cex :
    ¬ (readPos0Height (saveToEEPROM_TimeUp 3000 {} eepromHeights).2
        = readPos0Height eepromHeights) := by
  decide

/-- Claim C3 (amended): the three persisted records overlap in EEPROM.
The StoredProgram written at address 0 occupies bytes 0-9, so saving a
duration overwrites both height bytes (byte 0 becomes the isUpSet byte and
byte 1 the isDownSet byte); saving the position-0 height (a 2-byte int at
address 0) overwrites bytes 0 and 1; saving the position-1 height (at
address 1) overwrites byte 1 (the isDownSet byte) and byte 2 (the first
byte of the timeUp field). -/
theorem eeprom_records_overlap (p : StoredProgram) (e : EEPROM) (t h : Int) :
    (saveToEEPROM_TimeUp t p e).2 0 = 1
    ∧ (saveToEEPROM_TimeUp t p e).2 1 = boolByte p.isDownSet
    ∧ (saveToEEPROM_TimeDown t p e).2 0 = boolByte p.isUpSet
    ∧ (saveToEEPROM_TimeDown t p e).2 1 = 1
    ∧ putInt16 e 0 h 0 = intByte h 0
    ∧ putInt16 e 0 h 1 = intByte h 1
    ∧ putInt16 e 1 h 1 = intByte h 0
    ∧ putInt16 e 1 h 2 = intByte h 1 := by
  refine ⟨?_, ?_, ?_, ?_, ?_, ?_, ?_, ?_⟩ <;>
    simp [saveToEEPROM_TimeUp, saveToEEPROM_TimeDown, progBytes, floatBytes,
          writeBytes, putInt16, boolByte]

/-- Claim C4: a long-press save of position 0 with current height at or
above the stored stand height is rejected with Err0 and leaves the session
(EEPROM included) unchanged; below it, the height is persisted at address 0.
Symmetrically for position 1 with Err1 and the at-or-below-sit rejection.
The persisted profile is untouched on every rejection. -/
theorem longPressSave_ordering_guard (h : Int) (s : Session) :
    (s.pos1_height ≤ h → position0LongPress h s = (s, SaveResult.err0))
    ∧ (h < s.pos1_height →
        position0LongPress h s
          = ({ s with eeprom := putInt16 s.eeprom 0 h }, SaveResult.savedPos0))
    ∧ (h ≤ s.pos0_height → position1LongPress h s = (s, SaveResult.err1))
    ∧ (s.pos0_height < h →
        position1LongPress h s
          = ({ s with eeprom := putInt16 s.eeprom 1 h }, SaveResult.savedPos1)) := by
  refine ⟨fun hh => ?_, fun hh => ?_, fun hh => ?_, fun hh => ?_⟩ <;>
    simp [position0LongPress, position1LongPress] <;> omega

/-- Witness for longPressSave_ordering_guard at a concrete rejected save:
current height 120 with stand height 110 stored. -/
theorem longPressSave_ordering_guard_witness :
    (110 : Int) ≤ 120 ∧ position0LongPress 120 sess0 = (sess0, SaveResult.err0) :=
  ⟨by decide, (longPressSave_ordering_guard 120 sess0).1 (by decide)⟩

/-- Claim C5: invoking the open-loop timed controller with the matching
recorded-duration flag false commands the actuator zero times and returns
the not-programmed outcome, for auto-raise and auto-lower alike. -/
theorem autoDrive_notProgrammed_no_acts (env : AutoEnv) (a : Int) (fuel : Nat)
    (ds us : Bool) (tu td : Int) :
    autoRaiseDesk env { isUpSet := false, isDownSet := ds, timeUp := tu, timeDown := td } a fuel
      = ([], some Outcome.notProgrammed)
    ∧ autoLowerDesk env { isUpSet := us, isDownSet := false, timeUp := tu, timeDown := td } a fuel
      = ([], some Outcome.notProgrammed) :=
  ⟨rfl, rfl⟩

/-- Claim C6: the timed controller drives for
remaining = recordedDurationMs - alreadyElapsedMs, and when the elapsed
activation time already reaches the recorded duration (and the clock does
not run backwards between its two initial reads) the loop terminates
immediately: the only actuator command is the single final stop, with zero
drive commands, for any fuel. -/
theorem autoRaise_already_elapsed_immediate (env : AutoEnv) (ds : Bool)
    (tu td a : Int) (fuel : Nat)
    (hmillis : env.millis 0 ≤ env.millis 1) (helapsed : tu ≤ a) :
    timeToRaise { isUpSet := true, isDownSet := ds, timeUp := tu, timeDown := td } a = tu - a
    ∧ autoRaiseDesk env { isUpSet := true, isDownSet := ds, timeUp := tu, timeDown := td } a fuel
      = ([Act.stop], some Outcome.completed) := by
  constructor
  · rfl
  · have hnot : ¬ (env.millis 1 - env.millis 0 < tu - a) := by omega
    cases fuel with
    | zero => simp [autoRaiseDesk, autoDriveLoop, timeToRaise, hnot]
    | succ n => simp [autoRaiseDesk, autoDriveLoop, timeToRaise, hnot]

/-- Witness for autoRaise_already_elapsed_immediate: recorded duration
1000 ms, activation gesture already took 1500 ms, constant clock. -/
theorem autoRaise_already_elapsed_immediate_witness :
    autoEnv0.millis 0 ≤ autoEnv0.millis 1 ∧ (1000 : Int) ≤ 1500
    ∧ autoRaiseDesk autoEnv0
        { isUpSet := true, isDownSet := false, timeUp := 1000, timeDown := 0 } 1500 5
      = ([Act.stop], some Outcome.completed) :=
  ⟨by decide, by decide,
   (autoRaise_already_elapsed_immediate autoEnv0 false 1000 0 1500 5
      (by decide) (by decide)).2⟩

/-- Claim C8 counterexample: presses at 100 ms, 700 ms and 1150 ms.  The
third press arrives 450 ms after the second (inside the 1000 ms window of
the most recent press), yet because the expiry check is anchored at the
FIRST click of the window (1150 - 100 >= 1000) the counter has been reset
on that tick and the third press counts as a fresh first click: the counter
ends at 1, not at the 3 needed for activation. -/
theorem click_window_reset_cex :
    runClicks [(100, true), (400, false), (700, true), (1150, true)] { clicks := 0, firstClickTime := 0 }
      = { clicks := 1, firstClickTime := 1150 }
    ∧ ((1150 : Int) - 700 < PRG_ACTIVATE_PRECLICK_THRESHOLD)
    ∧ ¬ (PRG_ACTIVATE_PRECLICKS ≤
          (runClicks [(100, true), (400, false), (700, true), (1150, true)]
            { clicks := 0, firstClickTime := 0 }).clicks) := by
  decide

/-- Claim C8 (amended): the click counter resets when the gap since the
FIRST press of the current window reaches preclickWindowMs (1000 ms),
evaluated once per polling tick independently of press/release events.  For
three presses with the second inside the window: if the third press arrives
at least 1000 ms after the first, the tick expiry resets the counter and the
third press starts a new window (count 1), even when it is within 1000 ms
of the second press; if it arrives within 1000 ms of the first, all three
count (count 3). -/
theorem click_window_anchored_at_first_press (t1 t2 t3 : Int)
    (h1 : 0 < t1) (h2 : t2 - t1 < 1000) :
    (1000 ≤ t3 - t1 →
      runClicks [(t1, true), (t2, true), (t3, true)] { clicks := 0, firstClickTime := 0 }
        = { clicks := 1, firstClickTime := t3 })
    ∧ (t3 - t1 < 1000 →
      runClicks [(t1, true), (t2, true), (t3, true)] { clicks := 0, firstClickTime := 0 }
        = { clicks := 3, firstClickTime := t1 }) := by
  constructor <;> intro h3 <;>
    simp [runClicks, clickTick, checkButtonClicksExpired, registerClick,
          PRG_ACTIVATE_PRECLICK_THRESHOLD, List.foldl] <;>
    split_ifs <;> simp_all <;> omega

/-- Witness for click_window_anchored_at_first_press at presses
100, 700, 1150 ms. -/
theorem click_window_anchored_at_first_press_witness :
    runClicks [(100, true), (700, true), (1150, true)] { clicks := 0, firstClickTime := 0 }
      = { clicks := 1, firstClickTime := 1150 } :=
  (click_window_anchored_at_first_press 100 700 1150 (by decide) (by decide)).1 (by decide)

/-- Claim C10: a long-press save mutates only the EEPROM, never the in-RAM
pos0_height / pos1_height globals (assigned only at startup, lines 162-163),
so every subsequent short-press drive target and ordering check still uses
the startup-loaded height.  Concretely: after accepting a save of height 70
for position 0 in a session started with heights 50/110, the short-press
target is still 50 while the newly persisted byte reads 70. -/
theorem longPressSave_ram_heights_unchanged (h : Int) (s : Session) :
    ((position0LongPress h s).1.pos0_height = s.pos0_height)
    ∧ ((position0LongPress h s).1.pos1_height = s.pos1_height)
    ∧ ((position1LongPress h s).1.pos0_height = s.pos0_height)
    ∧ ((position1LongPress h s).1.pos1_height = s.pos1_height)
    ∧ shortPress0Target (position0LongPress h s).1 = s.pos0_height
    ∧ shortPress1Target (position1LongPress h s).1 = s.pos1_height
    ∧ shortPress0Target (position0LongPress 70 sess0).1 = 50
    ∧ readPos0Height (position0LongPress 70 sess0).1.eeprom = 70 := by
  refine ⟨?_, ?_, ?_, ?_, ?_, ?_, ?_, ?_⟩ <;>
    first
      | (simp [position0LongPress, position1LongPress, shortPress0Target,
               shortPress1Target]; split_ifs <;> rfl)
      | decide

end Skarsta
